import Mathlib

/-!
Verification of the betterstack uptime client (`client` package, `client.go`).

This file is a shallow embedding of the client code into Lean:

* Go `(value, error)` multi-returns become `value × Option String` pairs, with
  the Go zero value (`default`) in the value slot on the early-return paths,
  exactly as in the source.
* The HTTP transport (`http.DefaultClient.Do`) is an explicit parameter of
  every operation: a function from the built request to either a transport
  error (Go `err != nil`) or a response.  The JSON decoding of a response body
  (`json.NewDecoder(...).Decode`) is abstracted by carrying, on the response,
  the decode outcome for each envelope shape the code decodes into (the pair
  `decoded value × Option String`, the first component standing for the
  possibly partially-filled variable on a decode error).
* `net/url` parsing is modelled at the precision the client exercises:
  `url.Parse` fails exactly on ASCII control characters (its other failure
  modes are never reachable from the pagination links considered here, and
  `url.Parse ""` succeeds with an empty query, as in Go), `URL.Query()` is
  Go's `ParseQuery` (split on `&`, skip empty keys and keys containing `;`,
  cut at the first `=`, percent/plus-unescape, drop a pair whose unescaping
  fails), and `strconv.Atoi` parses an optionally signed decimal integer
  (64-bit overflow is not modelled; no claim involves it).
* Operations additionally return the list of HTTP requests they handed to the
  transport, in order, so that statements about "the issued request" and
  "no request is issued" are directly expressible.  `ListAllMonitors` returns
  the ordered list of page numbers for which it invoked the single-page list
  call.
-/

set_option linter.unusedVariables false

namespace Betterstack

/-! ## Constants (client.go lines 15–25) -/

def Blanc : String := ""

def ContentType : String := "Content-Type"

def ApplicationJSON : String := "application/json"

def BaseURL : String := "https://uptime.betterstack.com"

def APIV2Group : String := BaseURL ++ "/api/v2"

def Monitors : String := APIV2Group ++ "/monitors"

/-- `fmt.Sprintf(MonitorID, id)` where `MonitorID = APIV2Group ++ "/monitors/%s"`. -/
def MonitorIDURL (id : String) : String := APIV2Group ++ "/monitors/" ++ id

/-- `net/http` status constants used by the client. -/
def StatusOK : Int := 200

def StatusCreated : Int := 201

def StatusNoContent : Int := 204

/-! ## Go `net/url` fragment used by `Pagination.GetLastPage` -/

/-- The only component of a parsed `url.URL` the client reads. -/
structure GoURL where
  RawQuery : String := ""
  deriving Repr, DecidableEq, Inhabited

/-- Split a character list on a separator character (the semantics of Go's
`strings.Split` for a one-character separator, as used on `#`, `?`, `&` and
`=` here): always at least one piece, empty pieces preserved. -/
def splitOnChar (sep : Char) : List Char → List (List Char)
  | [] => [[]]
  | c :: rest =>
    match splitOnChar sep rest with
    | [] => if c == sep then [[], [c]] else [[c]]
    | x :: xs => if c == sep then [] :: x :: xs else (c :: x) :: xs

/-- Rejoin pieces with a separator character (inverse of `splitOnChar` on the
remaining pieces, as Go keeps everything after the first separator). -/
def joinWith (sep : Char) : List (List Char) → List Char
  | [] => []
  | [x] => x
  | x :: xs => x ++ sep :: joinWith sep xs

/-- Strip the fragment: `strings.Cut(rawURL, "#")` keeping the part before `#`. -/
def stripFragmentChars (cs : List Char) : List Char :=
  match splitOnChar '#' cs with
  | [] => []
  | x :: _ => x

/-- `url.Parse`.  Go's parser rejects ASCII control characters; its remaining
error conditions are not reachable from the URLs this client handles.  The raw
query is everything after the first `?` (fragment removed).  `url.Parse ""`
succeeds and yields an empty URL, as in Go. -/
def urlParse (rawURL : String) : GoURL × Option String :=
  if rawURL.data.any (fun c => c.toNat < 32 || c.toNat == 127) then
    ({ RawQuery := "" }, some "net/url: invalid control character in URL")
  else
    match splitOnChar '?' (stripFragmentChars rawURL.data) with
    | [] => ({ RawQuery := "" }, none)
    | [_] => ({ RawQuery := "" }, none)
    | _ :: rest => ({ RawQuery := String.mk (joinWith '?' rest) }, none)

/-- Value of a hexadecimal digit character, if it is one. -/
def hexVal? (c : Char) : Option Nat :=
  if '0' ≤ c ∧ c ≤ '9' then some (c.toNat - '0'.toNat)
  else if 'a' ≤ c ∧ c ≤ 'f' then some (c.toNat - 'a'.toNat + 10)
  else if 'A' ≤ c ∧ c ≤ 'F' then some (c.toNat - 'A'.toNat + 10)
  else none

/-- `url.QueryUnescape` on a character list: `%XX` hex-decodes, `+` becomes a
space, a malformed escape is an error.  (Multi-byte UTF-8 sequences are decoded
bytewise; the query strings considered here are ASCII.) -/
def queryUnescapeChars : List Char → Option (List Char)
  | [] => some []
  | '%' :: a :: b :: rest =>
    match hexVal? a, hexVal? b with
    | some x, some y => (queryUnescapeChars rest).map (Char.ofNat (16 * x + y) :: ·)
    | _, _ => none
  | '%' :: _ => none
  | '+' :: rest => (queryUnescapeChars rest).map (' ' :: ·)
  | c :: rest => (queryUnescapeChars rest).map (c :: ·)

def queryUnescape (s : String) : Option String :=
  (queryUnescapeChars s.data).map String.mk

/-- `url.ParseQuery`, as invoked through `URL.Query()` (which discards the
error): split on `&`, skip empty segments and segments containing `;`, cut each
segment at its first `=` (`strings.Cut`; value empty when there is no `=`),
unescape key and value, dropping a pair whose unescaping fails. -/
def parseQuery (query : String) : List (String × String) :=
  (splitOnChar '&' query.data).filterMap fun seg =>
    if seg.any (fun c => c == ';') then none
    else if seg.isEmpty then none
    else
      match splitOnChar '=' seg with
      | [] => none
      | k :: rest =>
        match queryUnescapeChars k, queryUnescapeChars (joinWith '=' rest) with
        | some ku, some vu => some (String.mk ku, String.mk vu)
        | _, _ => none

/-- `url.Values.Get`: first value for the key, `""` when absent. -/
def queryGet (params : List (String × String)) (key : String) : String :=
  match params.find? (fun kv => kv.1 == key) with
  | some kv => kv.2
  | none => ""

/-- One decimal digit. -/
def digitVal? (c : Char) : Option Nat :=
  if '0' ≤ c ∧ c ≤ '9' then some (c.toNat - '0'.toNat) else none

/-- Accumulate a non-empty run of decimal digits; `none` on a non-digit. -/
def parseDigits : List Char → Nat → Option Nat
  | [], acc => some acc
  | c :: rest, acc =>
    match digitVal? c with
    | some d => parseDigits rest (acc * 10 + d)
    | none => none

/-- `strconv.Atoi`: optional sign, then at least one decimal digit and nothing
else; returns `0` together with the `strconv` error text on bad input.
(64-bit overflow is not modelled.) -/
def goAtoi (s : String) : Int × Option String :=
  let bad : Int × Option String :=
    (0, some ("strconv.Atoi: parsing \"" ++ s ++ "\": invalid syntax"))
  let core : List Char → Option Int := fun cs =>
    match cs with
    | [] => none
    | '+' :: rest => if rest = [] then none else (parseDigits rest 0).map Int.ofNat
    | '-' :: rest => if rest = [] then none else (parseDigits rest 0).map (fun n => -(n : Int))
    | cs => (parseDigits cs 0).map Int.ofNat
  match core s.data with
  | some n => (n, none)
  | none => bad

/-! ## Data model (client.go, model part) -/

/-- `RequestHeader`: one request header record `{id, name, value}`. -/
structure RequestHeader where
  ID : String := ""
  Name : String := ""
  Value : String := ""
  deriving Repr, DecidableEq, Inhabited

/-- `Monitor`: the monitor attributes.  Field types follow the Go struct
(`int` as `Int`, `any`-typed `monitor_group_id` abstracted as an optional
string).  Every field defaults to its Go zero value. -/
structure Monitor where
  ID : String := ""
  TeamName : String := ""
  MonitorType : String := ""
  URL : String := ""
  PronounceableName : String := ""
  Email : Bool := false
  SMS : Bool := false
  Call : Bool := false
  Push : Bool := false
  CheckFrequency : Int := 0
  RequestHeaders : List RequestHeader := []
  ExpectedStatusCodes : List Int := []
  DomainExpiration : Int := 0
  SSLExpiration : Int := 0
  PolicyID : String := ""
  FollowRedirects : Bool := false
  RequiredKeyword : String := ""
  TeamWait : Int := 0
  Paused : Bool := false
  Port : Int := 0
  Regions : List String := []
  MonitorGroupID : Option String := none
  RecoveryPeriod : Int := 0
  VerifySSL : Bool := false
  ConfirmationPeriod : Int := 0
  HTTPMethod : String := ""
  RequestTimeout : Int := 0
  RequestMethod : String := ""
  AuthUsername : String := ""
  AuthPassword : String := ""
  MaintenanceDays : List String := []
  MaintenanceFrom : String := ""
  MaintenanceTo : String := ""
  MaintenanceTimezone : String := ""
  RememberCookies : Bool := false
  PlaywrightScript : String := ""
  ScenarioName : String := ""
  Status : String := ""
  deriving Repr, DecidableEq, Inhabited

/-- `MonitorGroup` (timestamps abstracted as optional strings). -/
structure MonitorGroup where
  Name : String := ""
  TeamName : String := ""
  SortIndex : Int := 0
  CreatedAt : Option String := none
  UpdatedAt : Option String := none
  Paused : Bool := false
  deriving Repr, DecidableEq, Inhabited

/-- The decoded JSON `errors` payload (Go `any`), abstracted as an optional
list of strings: `none` for a JSON null / absent field (nil interface),
`some l` for an array. -/
abbrev GoErrors := Option (List String)

/-- `funk.NotEmpty` on the `errors` payload: a nil interface or an empty
collection is empty, anything else is non-empty. -/
def errorsNotEmpty : GoErrors → Bool
  | none => false
  | some l => !l.isEmpty

/-- `fmt` `%v` rendering of the `errors` payload (`<nil>` for a nil
interface). -/
def renderErrors : GoErrors → String
  | none => "<nil>"
  | some l => "[" ++ String.intercalate " " l ++ "]"

/-- `Pagination`: the four pagination links. -/
structure Pagination where
  First : String := ""
  Last : String := ""
  Previous : String := ""
  Next : String := ""
  deriving Repr, DecidableEq, Inhabited

def Pagination.HasNext (p : Pagination) : Bool := p.Next ≠ ""

def Pagination.HasPrevious (p : Pagination) : Bool := p.Previous ≠ ""

/-- `Pagination.GetLastPage` (client.go lines 500–518): parse the `last` link,
read its `page` query parameter, convert it to an integer. -/
def Pagination.GetLastPage (p : Pagination) : Int × Option String :=
  match (urlParse p.Last).2 with
  | some e => (0, some ("failed to parse URL: " ++ e))
  | none =>
    let pageStr := queryGet (parseQuery (urlParse p.Last).1.RawQuery) "page"
    if pageStr = "" then (0, some "'page' parameter not found in URL")
    else
      match (goAtoi pageStr).2 with
      | some e => (0, some ("invalid 'page' value: " ++ e))
      | none => ((goAtoi pageStr).1, none)

/-- `EntityWrapper[T]`: `{id, type, attributes}`. -/
structure EntityWrapper (T : Type) where
  ID : String := ""
  Type' : String := ""
  Attributes : T
  deriving Repr, DecidableEq, Inhabited

/-- `ListWrapper[T]`: a page of entity wrappers plus errors and pagination. -/
structure ListWrapper (T : Type) where
  Data : List (EntityWrapper T) := []
  Errors : GoErrors := none
  Pagination : Pagination := {}
  deriving Repr, DecidableEq, Inhabited

/-- `ResponseWrapper[T]`: one entity wrapper plus errors and pagination. -/
structure ResponseWrapper (T : Type) [Inhabited T] where
  Data : EntityWrapper T := { Attributes := default }
  Errors : GoErrors := none
  Pagination : Pagination := {}
  deriving Repr, DecidableEq, Inhabited

abbrev MonitorResponse := ResponseWrapper Monitor

abbrev MonitorsResponse := ListWrapper Monitor

/-! ## HTTP model -/

/-- An `http.Request` as this client builds it.  `Params` is the structured
view of the query string already encoded into `URL` (the `url.Values` the code
built); `Body` carries the monitor serialized by `json.Marshal` for
create/update (serialization of this struct cannot fail). -/
structure HTTPRequest where
  Method : String := ""
  URL : String := ""
  Params : List (String × String) := []
  Headers : List (String × String) := []
  Body : Option Monitor := none
  deriving Repr, DecidableEq, Inhabited

/-- An `http.Response`, with the JSON decoding of its body abstracted: for each
envelope shape the client decodes into, the response carries the decoded value
together with the decode error (`BodyList` for `MonitorsResponse`, `BodyItem`
for `MonitorResponse`; the value component models the possibly partially
filled result variable on a decode error). -/
structure HTTPResponse where
  StatusCode : Int := 0
  Status : String := ""
  BodyList : MonitorsResponse × Option String := (default, none)
  BodyItem : MonitorResponse × Option String := (default, none)
  deriving Repr, DecidableEq, Inhabited

/-- `http.DefaultClient.Do`, made explicit: either a transport error
(`err != nil`) or a response. -/
abbrev Transport := HTTPRequest → Except String HTTPResponse

/-- `BetterstackClient`: only the fixed header set. -/
structure BetterstackClient where
  headers : List (String × String) := []
  deriving Repr, DecidableEq, Inhabited

def getDefaultHeaders : List (String × String) := [(ContentType, ApplicationJSON)]

def NewClient (apiToken : String) : BetterstackClient :=
  { headers := getDefaultHeaders ++ [("Authorization", "Bearer " ++ apiToken)] }

/-! ## Query encoding (`url.Values.Encode`) -/

/-- Does `url.QueryEscape` leave this character untouched? -/
def isUnreservedQueryChar (c : Char) : Bool :=
  ('A' ≤ c && c ≤ 'Z') || ('a' ≤ c && c ≤ 'z') || ('0' ≤ c && c ≤ '9') ||
    c == '-' || c == '_' || c == '.' || c == '~'

def hexDigitUpper (n : Nat) : Char :=
  if n < 10 then Char.ofNat ('0'.toNat + n) else Char.ofNat ('A'.toNat + n - 10)

/-- `url.QueryEscape` (bytewise for ASCII; the parameters this client encodes
are ASCII). -/
def queryEscape (s : String) : String :=
  String.mk (s.data.foldr
    (fun c acc =>
      if c == ' ' then '+' :: acc
      else if isUnreservedQueryChar c then c :: acc
      else '%' :: hexDigitUpper (c.toNat / 16) :: hexDigitUpper (c.toNat % 16) :: acc)
    [])

/-- Insertion into a key-sorted pair list, used to model the key sort performed
by `url.Values.Encode`. -/
def insertByKey (kv : String × String) : List (String × String) → List (String × String)
  | [] => [kv]
  | x :: xs => if kv.1 ≤ x.1 then kv :: x :: xs else x :: insertByKey kv xs

def sortByKey : List (String × String) → List (String × String)
  | [] => []
  | x :: xs => insertByKey x (sortByKey xs)

/-- `url.Values.Encode`: keys sorted, each pair escaped and joined. -/
def encodeQuery (params : List (String × String)) : String :=
  String.intercalate "&" ((sortByKey params).map
    (fun kv => queryEscape kv.1 ++ "=" ++ queryEscape kv.2))

/-! ## Resource client operations (client.go lines 51–286) -/

/-- Lines 54–56: a page number below 1 is clamped to 1. -/
def clampPage (page : Int) : Int := if page < 1 then 1 else page

/-- Lines 58–60: the query parameters every list call carries. -/
def baseListParams (page : Int) : List (String × String) :=
  [("per_page", "250"), ("page", toString page)]

/-- Lines 62–71: the filter block of `ListMonitors`.  When both the filter
type and the filter value are non-empty, a recognized type adds its parameter
and an unrecognized type is a validation error; otherwise the filter is
ignored. -/
def addFilterParams (params : List (String × String)) (filterType filterValue : String) :
    List (String × String) × Option String :=
  if filterType ≠ "" ∧ filterValue ≠ "" then
    if filterType = "url" then (params ++ [("url", filterValue)], none)
    else if filterType = "pronounceable_name" then
      (params ++ [("pronounceable_name", filterValue)], none)
    else (params, some ("invalid filter type: " ++ filterType))
  else (params, none)

/-- Lines 73–80: the GET request `ListMonitors` builds (`http.NewRequest`
cannot fail for this constant scheme and method). -/
def listRequest (c : BetterstackClient) (params : List (String × String)) : HTTPRequest :=
  { Method := "GET"
    URL := Monitors ++ "?" ++ encodeQuery params
    Params := params
    Headers := c.headers }

/-- `ListMonitors` (lines 51–97).  Returns the Go `(result, error)` pair plus
the list of requests handed to the transport (empty exactly when validation
rejected the call before any request was issued). -/
def ListMonitors (c : BetterstackClient) (t : Transport) (page : Int)
    (filterType filterValue : String) :
    MonitorsResponse × Option String × List HTTPRequest :=
  let params0 := baseListParams (clampPage page)
  let fp := addFilterParams params0 filterType filterValue
  match fp.2 with
  | some e => (default, some e, [])
  | none =>
    let req := listRequest c fp.1
    match t req with
    | .error e => (default, some ("failed to execute request: " ++ e), [req])
    | .ok resp =>
      match resp.BodyList.2 with
      | some e => (resp.BodyList.1, some ("failed to unmarshal response: " ++ e), [req])
      | none =>
        if errorsNotEmpty resp.BodyList.1.Errors then
          (resp.BodyList.1,
            some ("failed to list monitors: " ++ renderErrors resp.BodyList.1.Errors), [req])
        else (resp.BodyList.1, none, [req])

/-- Lines 116–117 / 131–133 / 151–153: copy the wrapper identifier into the
attributes before appending (`mon.Attributes.ID = mon.ID`). -/
def withID (mon : EntityWrapper Monitor) : Monitor :=
  { mon.Attributes with ID := mon.ID }

/-- Lines 126–135: the page loop of `ListAllMonitors`, instrumented with the
ordered list of visited page numbers. -/
def listPagesLoop (c : BetterstackClient) (t : Transport) (lastPage : Int) (i : Int)
    (result : List Monitor) (trace : List Int) :
    List Monitor × Option String × List Int :=
  if h : i > lastPage then (result, none, trace)
  else
    let temp := ListMonitors c t i Blanc Blanc
    match temp.2.1 with
    | some e => (result, some e, trace ++ [i])
    | none =>
      listPagesLoop c t lastPage (i + 1) (result ++ temp.1.Data.map withID) (trace ++ [i])
termination_by (lastPage + 1 - i).toNat
decreasing_by
  simp only [not_lt] at h
  omega

/-- `ListAllMonitors` (lines 99–138): fetch page 1, derive the last page from
the pagination envelope, aggregate all pages in order.  The third component is
the ordered list of page numbers for which the single-page list call was
issued. -/
def ListAllMonitors (c : BetterstackClient) (t : Transport) :
    List Monitor × Option String × List Int :=
  let res1 := ListMonitors c t 1 Blanc Blanc
  match res1.2.1 with
  | some e => ([], some e, [1])
  | none =>
    match (res1.1.Pagination.GetLastPage).2 with
    | some e => ([], some e, [1])
    | none =>
      let lastPage := (res1.1.Pagination.GetLastPage).1
      let result := res1.1.Data.map withID
      if 1 = lastPage then (result, none, [1])
      else listPagesLoop c t lastPage 2 result [1]

/-- `FindMonitor` (lines 140–157). -/
def FindMonitor (c : BetterstackClient) (t : Transport) (kind val : String) :
    List Monitor × Option String :=
  let res1 := ListMonitors c t 1 kind val
  match res1.2.1 with
  | some e => ([], some e)
  | none => (res1.1.Data.map withID, none)

/-- The POST request `CreateMonitor` builds (lines 161–173; `json.Marshal` of
a `Monitor` cannot fail, so the serialization error branch is dead). -/
def createRequest (c : BetterstackClient) (monitor : Monitor) : HTTPRequest :=
  { Method := "POST", URL := Monitors, Headers := c.headers, Body := some monitor }

/-- `CreateMonitor` (lines 159–192).  Note that the Go code merges the
transport-error and status checks:
`if monsRespErr != nil || monitorResponse.StatusCode != http.StatusCreated`,
formatting the (then nil) transport error, so a status mismatch yields
`failed to execute request: <nil>`. -/
def CreateMonitor (c : BetterstackClient) (t : Transport) (monitor : Monitor) :
    MonitorResponse × Option String :=
  match t (createRequest c monitor) with
  | .error e => (default, some ("failed to execute request: " ++ e))
  | .ok resp =>
    if resp.StatusCode ≠ StatusCreated then
      (default, some ("failed to execute request: " ++ "<nil>"))
    else
      match resp.BodyItem.2 with
      | some e => (resp.BodyItem.1, some ("failed to unmarshal response: " ++ e))
      | none =>
        if errorsNotEmpty resp.BodyItem.1.Errors then
          (resp.BodyItem.1,
            some ("failed to list monitors: " ++ renderErrors resp.BodyItem.1.Errors))
        else
          let result := resp.BodyItem.1
          ({ result with
              Data := { result.Data with
                Attributes := { result.Data.Attributes with ID := result.Data.ID } } },
            none)

/-- The GET request `GetMonitor` builds (lines 196–203). -/
def getRequest (c : BetterstackClient) (id : String) : HTTPRequest :=
  { Method := "GET", URL := MonitorIDURL id, Headers := c.headers }

/-- `GetMonitor` (lines 194–222). -/
def GetMonitor (c : BetterstackClient) (t : Transport) (id : String) :
    MonitorResponse × Option String :=
  match t (getRequest c id) with
  | .error e => (default, some ("failed to execute request: " ++ e))
  | .ok resp =>
    match resp.BodyItem.2 with
    | some e => (resp.BodyItem.1, some ("failed to unmarshal response: " ++ e))
    | none =>
      if errorsNotEmpty resp.BodyItem.1.Errors then
        (resp.BodyItem.1,
          some ("failed to get monitor: " ++ renderErrors resp.BodyItem.1.Errors))
      else
        let result := resp.BodyItem.1
        ({ result with
            Data := { result.Data with
              Attributes := { result.Data.Attributes with ID := result.Data.ID } } },
          none)

/-- The PATCH request `UpdateMonitor` builds (lines 226–239). -/
def updateRequest (c : BetterstackClient) (id : String) (monitor : Monitor) : HTTPRequest :=
  { Method := "PATCH", URL := MonitorIDURL id, Headers := c.headers, Body := some monitor }

/-- `UpdateMonitor` (lines 224–261): unlike create/delete, the status check is
a separate branch formatting the HTTP status text. -/
def UpdateMonitor (c : BetterstackClient) (t : Transport) (id : String) (monitor : Monitor) :
    MonitorResponse × Option String :=
  match t (updateRequest c id monitor) with
  | .error e => (default, some ("failed to execute request: " ++ e))
  | .ok resp =>
    if resp.StatusCode ≠ StatusOK then
      (default, some ("failed to execute request: " ++ resp.Status))
    else
      match resp.BodyItem.2 with
      | some e => (resp.BodyItem.1, some ("failed to unmarshal response: " ++ e))
      | none =>
        if errorsNotEmpty resp.BodyItem.1.Errors then
          (resp.BodyItem.1,
            some ("failed to update monitor: " ++ renderErrors resp.BodyItem.1.Errors))
        else
          let result := resp.BodyItem.1
          ({ result with
              Data := { result.Data with
                Attributes := { result.Data.Attributes with ID := result.Data.ID } } },
            none)

/-- The DELETE request `DeleteMonitor` builds (lines 265–272). -/
def deleteRequest (c : BetterstackClient) (id : String) : HTTPRequest :=
  { Method := "DELETE", URL := MonitorIDURL id, Headers := c.headers }

/-- `DeleteMonitor` (lines 263–280): like create, the transport-error and
status checks are merged, a status mismatch formatting the nil error. -/
def DeleteMonitor (c : BetterstackClient) (t : Transport) (id : String) : Option String :=
  match t (deleteRequest c id) with
  | .error e => some ("failed to execute request: " ++ e)
  | .ok resp =>
    if resp.StatusCode ≠ StatusNoContent then
      some ("failed to execute request: " ++ "<nil>")
    else none

/-! ## Derived notions used by the statements -/

/-- The integer interval `[a, b]` as a list, in order. -/
def intRange (a b : Int) : List Int :=
  if h : a > b then [] else a :: intRange (a + 1) b
termination_by (b + 1 - a).toNat
decreasing_by
  simp only [not_lt] at h
  omega

/-- The concatenation, in page order, of the identifier-copied items of the
single-page list calls for pages `a..b`. -/
def pagesConcat (c : BetterstackClient) (t : Transport) (a b : Int) : List Monitor :=
  if h : a > b then []
  else (ListMonitors c t a Blanc Blanc).1.Data.map withID ++ pagesConcat c t (a + 1) b
termination_by (b + 1 - a).toNat
decreasing_by
  simp only [not_lt] at h
  omega

/-! ## Unfolding lemmas for the recursive definitions -/

theorem intRange_gt {a b : Int} (h : a > b) : intRange a b = [] := by
  unfold intRange
  simp [h]

theorem intRange_le {a b : Int} (h : a ≤ b) : intRange a b = a :: intRange (a + 1) b := by
  conv_lhs => unfold intRange
  rw [dif_neg (by omega)]

theorem pagesConcat_gt (c : BetterstackClient) (t : Transport) {a b : Int} (h : a > b) :
    pagesConcat c t a b = [] := by
  unfold pagesConcat
  simp [h]

theorem pagesConcat_le (c : BetterstackClient) (t : Transport) {a b : Int} (h : a ≤ b) :
    pagesConcat c t a b =
      (ListMonitors c t a Blanc Blanc).1.Data.map withID ++ pagesConcat c t (a + 1) b := by
  conv_lhs => unfold pagesConcat
  rw [dif_neg (by omega)]

theorem listPagesLoop_gt (c : BetterstackClient) (t : Transport) (lastPage i : Int)
    (acc : List Monitor) (tr : List Int) (h : i > lastPage) :
    listPagesLoop c t lastPage i acc tr = (acc, none, tr) := by
  unfold listPagesLoop
  simp [h]

theorem listPagesLoop_fail_here (c : BetterstackClient) (t : Transport) (lastPage i : Int)
    (acc : List Monitor) (tr : List Int) {e : String} (h : i ≤ lastPage)
    (hf : (ListMonitors c t i Blanc Blanc).2.1 = some e) :
    listPagesLoop c t lastPage i acc tr = (acc, some e, tr ++ [i]) := by
  unfold listPagesLoop
  simp [not_lt_of_ge h, hf]

theorem listPagesLoop_ok_here (c : BetterstackClient) (t : Transport) (lastPage i : Int)
    (acc : List Monitor) (tr : List Int) (h : i ≤ lastPage)
    (hok : (ListMonitors c t i Blanc Blanc).2.1 = none) :
    listPagesLoop c t lastPage i acc tr =
      listPagesLoop c t lastPage (i + 1)
        (acc ++ (ListMonitors c t i Blanc Blanc).1.Data.map withID) (tr ++ [i]) := by
  conv_lhs => unfold listPagesLoop
  simp [not_lt_of_ge h, hok]

/-! ## Concrete fake transports used by witnesses and counterexamples -/

/-- A response whose page-1 body decodes cleanly into one item but whose
pagination `last` link is the empty string. -/
def respEmptyLast : HTTPResponse :=
  { StatusCode := 200
    Status := "200 OK"
    BodyList := ({ Data := [{ ID := "m1", Attributes := {} }] }, none) }

/-- A transport that always serves `respEmptyLast`. -/
def tEmptyLast : Transport := fun _ => .ok respEmptyLast

/-! ## C2 -/

/-- C2 is false on the code: `GetLastPage` on an empty `last` link does not
yield total pages = 1 — it returns the surfaced error
`'page' parameter not found in URL` (Go's `url.Parse ""` succeeds with an
empty query, so the missing-parameter branch fires), and `ListAllMonitors`
propagates that error instead of returning the page-1 items: against a
transport whose page-1 response has an empty `last` link it returns no items
at all. -/
theorem getLastPage_empty_link_is_error :
    Pagination.GetLastPage { Last := "" } ≠ (1, none) ∧
    Pagination.GetLastPage { Last := "" } = (0, some "'page' parameter not found in URL") ∧
    ListAllMonitors (NewClient "token") tEmptyLast =
      ([], some "'page' parameter not found in URL", [1]) := by
  refine ⟨by decide, rfl, rfl⟩

/-- C2 (amended): for every page-1 response that decodes cleanly but whose
pagination `last` link is the empty string, `GetLastPage` returns the error
`'page' parameter not found in URL` (not total pages = 1), and
`ListAllMonitors` propagates that error, returning no items and issuing no
further page fetch. -/
theorem listAllMonitors_empty_last_link (c : BetterstackClient) (t : Transport)
    (r : MonitorsResponse)
    (h1 : (ListMonitors c t 1 Blanc Blanc).1 = r)
    (he : (ListMonitors c t 1 Blanc Blanc).2.1 = none)
    (hlast : r.Pagination.Last = "") :
    Pagination.GetLastPage r.Pagination = (0, some "'page' parameter not found in URL") ∧
    ListAllMonitors c t = ([], some "'page' parameter not found in URL", [1]) := by
  have hg : Pagination.GetLastPage r.Pagination =
      (0, some "'page' parameter not found in URL") := by
    unfold Pagination.GetLastPage
    rw [hlast]
    rfl
  refine ⟨hg, ?_⟩
  simp only [ListAllMonitors, he, h1, hg]

/-- Witness for C2's amended theorem: the concrete empty-`last`-link transport
satisfies its hypotheses. -/
theorem listAllMonitors_empty_last_link_witness :
    ListAllMonitors (NewClient "token") tEmptyLast =
      ([], some "'page' parameter not found in URL", [1]) :=
  (listAllMonitors_empty_last_link (NewClient "token") tEmptyLast
    respEmptyLast.BodyList.1 rfl rfl rfl).2

/-! ## C4 -/

/-- C4: `GetLastPage` returns the integer value of the `page` query parameter
of the `last` link — `.../monitors?page=7` yields 7 — and for every parsable
non-empty link that lacks a `page` parameter, or whose `page` value is not an
integer, it returns a surfaced validation failure rather than silently
assuming one page. -/
theorem getLastPage_parses_page_param :
    Pagination.GetLastPage { Last := Monitors ++ "?page=7" } = (7, none) ∧
    (∀ p : Pagination, p.Last ≠ "" → (urlParse p.Last).2 = none →
      queryGet (parseQuery (urlParse p.Last).1.RawQuery) "page" = "" →
      Pagination.GetLastPage p = (0, some "'page' parameter not found in URL")) ∧
    (∀ p : Pagination, (urlParse p.Last).2 = none →
      ∀ e : String,
        (goAtoi (queryGet (parseQuery (urlParse p.Last).1.RawQuery) "page")).2 = some e →
        queryGet (parseQuery (urlParse p.Last).1.RawQuery) "page" ≠ "" →
        Pagination.GetLastPage p = (0, some ("invalid 'page' value: " ++ e))) := by
  refine ⟨rfl, ?_, ?_⟩
  · intro p hne hparse hget
    unfold Pagination.GetLastPage
    rw [hparse, hget]
    rfl
  · intro p hparse e hatoi hget
    unfold Pagination.GetLastPage
    rw [hparse, if_neg hget, hatoi]

/-- Witness for C4: a link missing the `page` parameter and a link with a
non-integer `page` value, both through the theorem. -/
theorem getLastPage_parses_page_param_witness :
    Pagination.GetLastPage { Last := Monitors ++ "?foo=1" } =
      (0, some "'page' parameter not found in URL") ∧
    Pagination.GetLastPage { Last := Monitors ++ "?page=abc" } =
      (0, some ("invalid 'page' value: " ++ "strconv.Atoi: parsing \"abc\": invalid syntax")) :=
  ⟨getLastPage_parses_page_param.2.1 { Last := Monitors ++ "?foo=1" } (by decide) rfl rfl,
   getLastPage_parses_page_param.2.2 { Last := Monitors ++ "?page=abc" } rfl
     "strconv.Atoi: parsing \"abc\": invalid syntax" rfl (by decide)⟩

/-! ## Properties of the filter block and the issued list request -/

theorem addFilterParams_of_empty {params : List (String × String)} {ft fv : String}
    (h : ft = "" ∨ fv = "") : addFilterParams params ft fv = (params, none) := by
  unfold addFilterParams
  rcases h with h | h <;> simp [h]

theorem addFilterParams_url {params : List (String × String)} {ft fv : String}
    (h2 : fv ≠ "") (h3 : ft = "url") :
    addFilterParams params ft fv = (params ++ [("url", fv)], none) := by
  subst h3
  unfold addFilterParams
  rw [if_pos ⟨by decide, h2⟩, if_pos rfl]

theorem addFilterParams_name {params : List (String × String)} {ft fv : String}
    (h2 : fv ≠ "") (h3 : ft = "pronounceable_name") :
    addFilterParams params ft fv = (params ++ [("pronounceable_name", fv)], none) := by
  subst h3
  unfold addFilterParams
  rw [if_pos ⟨by decide, h2⟩, if_neg (by decide), if_pos rfl]

theorem addFilterParams_invalid {params : List (String × String)} {ft fv : String}
    (h1 : ft ≠ "") (h2 : fv ≠ "") (h3 : ft ≠ "url") (h4 : ft ≠ "pronounceable_name") :
    addFilterParams params ft fv = (params, some ("invalid filter type: " ++ ft)) := by
  unfold addFilterParams
  rw [if_pos ⟨h1, h2⟩, if_neg h3, if_neg h4]

/-- When the filter block rejects the call, `ListMonitors` returns the
validation error and issues no request. -/
theorem listMonitors_validation_failure (c : BetterstackClient) (t : Transport)
    (page : Int) (ft fv : String) {e : String}
    (hfp : (addFilterParams (baseListParams (clampPage page)) ft fv).2 = some e) :
    ListMonitors c t page ft fv = (default, some e, []) := by
  simp only [ListMonitors, hfp]

/-- When the filter block accepts the call, `ListMonitors` hands exactly one
request to the transport: the list request for the accumulated parameters. -/
theorem listMonitors_issued (c : BetterstackClient) (t : Transport)
    (page : Int) (ft fv : String)
    (hfp : (addFilterParams (baseListParams (clampPage page)) ft fv).2 = none) :
    (ListMonitors c t page ft fv).2.2 =
      [listRequest c (addFilterParams (baseListParams (clampPage page)) ft fv).1] := by
  simp only [ListMonitors, hfp]
  split
  · rfl
  · split
    · rfl
    · split <;> rfl

/-! ## C9 -/

/-- C9: every request a list call hands to the transport carries the query
parameter `per_page = 250`, and its `page` parameter is the page argument
clamped to 1 from below. -/
theorem listMonitors_per_page_fixed (c : BetterstackClient) (t : Transport)
    (page : Int) (ft fv : String) :
    ∀ r ∈ (ListMonitors c t page ft fv).2.2,
      r.Params.filter (fun kv => kv.1 == "per_page") = [("per_page", "250")] ∧
      r.Params.filter (fun kv => kv.1 == "page") =
        [("page", toString (if page < 1 then 1 else page))] := by
  intro r hr
  by_cases hemp : ft = "" ∨ fv = ""
  · rw [listMonitors_issued c t page ft fv
      (by rw [addFilterParams_of_empty hemp])] at hr
    rw [List.mem_singleton.mp hr, addFilterParams_of_empty hemp]
    constructor <;> simp [listRequest, baseListParams, clampPage, List.filter]
  · push_neg at hemp
    by_cases hurl : ft = "url"
    · rw [listMonitors_issued c t page ft fv
        (by rw [addFilterParams_url hemp.2 hurl])] at hr
      rw [List.mem_singleton.mp hr, addFilterParams_url hemp.2 hurl]
      constructor <;> simp [listRequest, baseListParams, clampPage, List.filter]
    · by_cases hnam : ft = "pronounceable_name"
      · rw [listMonitors_issued c t page ft fv
          (by rw [addFilterParams_name hemp.2 hnam])] at hr
        rw [List.mem_singleton.mp hr, addFilterParams_name hemp.2 hnam]
        constructor <;> simp [listRequest, baseListParams, clampPage, List.filter]
      · rw [listMonitors_validation_failure c t page ft fv
          (by rw [addFilterParams_invalid hemp.1 hemp.2 hurl hnam])] at hr
        simp at hr

/-- Witness for C9: the no-filter call at page 0 issues one request with
`per_page = 250` and `page` clamped to `1`. -/
theorem listMonitors_per_page_fixed_witness :
    ((ListMonitors (NewClient "token") tEmptyLast 0 Blanc Blanc).2.2.map
        (fun r => r.Params)) = [[("per_page", "250"), ("page", "1")]] ∧
    ∀ r ∈ (ListMonitors (NewClient "token") tEmptyLast 0 Blanc Blanc).2.2,
      r.Params.filter (fun kv => kv.1 == "page") = [("page", toString (1 : Int))] := by
  refine ⟨rfl, fun r hr => ?_⟩
  have h := (listMonitors_per_page_fixed (NewClient "token") tEmptyLast 0 Blanc Blanc r hr).2
  simpa using h

/-! ## C10 -/

/-- C10: for every list call in which exactly one of the filter kind and the
filter value is empty, no filter validation happens and the request is issued
with no filter parameter at all — the call behaves exactly like the
filterless call, one request is issued, and its parameters are only
`per_page` and `page`. -/
theorem listMonitors_filter_dropped (c : BetterstackClient) (t : Transport)
    (page : Int) (ft fv : String)
    (h : (ft = "" ∧ fv ≠ "") ∨ (ft ≠ "" ∧ fv = "")) :
    ListMonitors c t page ft fv = ListMonitors c t page Blanc Blanc ∧
    (ListMonitors c t page ft fv).2.2.length = 1 ∧
    ∀ r ∈ (ListMonitors c t page ft fv).2.2,
      r.Params = baseListParams (clampPage page) := by
  have hemp : ft = "" ∨ fv = "" := by tauto
  have hfp : addFilterParams (baseListParams (clampPage page)) ft fv =
      (baseListParams (clampPage page), none) := addFilterParams_of_empty hemp
  have hblanc : addFilterParams (baseListParams (clampPage page)) Blanc Blanc =
      (baseListParams (clampPage page), none) := addFilterParams_of_empty (Or.inl rfl)
  refine ⟨?_, ?_, ?_⟩
  · simp only [ListMonitors, hfp, hblanc]
  · rw [listMonitors_issued c t page ft fv (by rw [hfp])]
    rfl
  · intro r hr
    rw [listMonitors_issued c t page ft fv (by rw [hfp])] at hr
    rw [List.mem_singleton.mp hr, hfp]
    rfl

/-- Witness for C10: a recognized kind with an empty value is silently
dropped — the call equals the filterless call and issues one filterless
request. -/
theorem listMonitors_filter_dropped_witness :
    ListMonitors (NewClient "token") tEmptyLast 1 "url" "" =
      ListMonitors (NewClient "token") tEmptyLast 1 Blanc Blanc ∧
    (ListMonitors (NewClient "token") tEmptyLast 1 "url" "").2.2.length = 1 := by
  have h := listMonitors_filter_dropped (NewClient "token") tEmptyLast 1 "url" ""
    (Or.inr ⟨by decide, rfl⟩)
  exact ⟨h.1, h.2.1⟩

/-! ## C6 -/

/-- C6 is false on the code as stated: with an unrecognized filter kind and an
empty filter value, `ListMonitors` performs no validation at all — it returns
no error and still issues one request (the filter block only runs when both
the kind and the value are non-empty). -/
theorem listMonitors_unrecognized_kind_not_always_rejected :
    (ListMonitors (NewClient "token") tEmptyLast 1 "bogus" "").2.1 = none ∧
    (ListMonitors (NewClient "token") tEmptyLast 1 "bogus" "").2.2.length = 1 := by
  exact ⟨rfl, rfl⟩

/-- C6 (amended): for every list call whose filter kind and filter value are
both non-empty, a recognized kind (`url`, `pronounceable_name`) leads to
exactly one issued request carrying exactly one of the two recognized query
parameters, and any other kind fails validation with no request issued; a
call with an empty kind or empty value skips the filter block entirely. -/
theorem listMonitors_filter_validation (c : BetterstackClient) (t : Transport)
    (page : Int) (ft fv : String) (h1 : ft ≠ "") (h2 : fv ≠ "") :
    ((ft = "url" ∨ ft = "pronounceable_name") →
      (ListMonitors c t page ft fv).2.2.length = 1 ∧
      ∀ r ∈ (ListMonitors c t page ft fv).2.2,
        (r.Params.filter (fun kv => kv.1 == "url" || kv.1 == "pronounceable_name")).length
          = 1) ∧
    (ft ≠ "url" → ft ≠ "pronounceable_name" →
      ListMonitors c t page ft fv = (default, some ("invalid filter type: " ++ ft), [])) := by
  constructor
  · rintro (hurl | hnam)
    · have hfp := @addFilterParams_url (baseListParams (clampPage page)) ft fv h2 hurl
      refine ⟨by rw [listMonitors_issued c t page ft fv (by rw [hfp])]; rfl, fun r hr => ?_⟩
      rw [listMonitors_issued c t page ft fv (by rw [hfp])] at hr
      rw [List.mem_singleton.mp hr, hfp]
      simp [listRequest, baseListParams, List.filter]
    · have hfp := @addFilterParams_name (baseListParams (clampPage page)) ft fv h2 hnam
      refine ⟨by rw [listMonitors_issued c t page ft fv (by rw [hfp])]; rfl, fun r hr => ?_⟩
      rw [listMonitors_issued c t page ft fv (by rw [hfp])] at hr
      rw [List.mem_singleton.mp hr, hfp]
      simp [listRequest, baseListParams, List.filter]
  · intro h3 h4
    exact listMonitors_validation_failure c t page ft fv
      (by rw [addFilterParams_invalid h1 h2 h3 h4])

/-- Witness for C6's amended theorem: a recognized kind with a non-empty value
sets exactly one recognized parameter; an unrecognized kind with a non-empty
value is rejected with no request issued. -/
theorem listMonitors_filter_validation_witness :
    (∀ r ∈ (ListMonitors (NewClient "token") tEmptyLast 1 "url" "x").2.2,
      (r.Params.filter (fun kv => kv.1 == "url" || kv.1 == "pronounceable_name")).length
        = 1) ∧
    ListMonitors (NewClient "token") tEmptyLast 1 "bogus" "x" =
      (default, some ("invalid filter type: " ++ "bogus"), []) := by
  constructor
  · exact ((listMonitors_filter_validation (NewClient "token") tEmptyLast 1 "url" "x"
      (by decide) (by decide)).1 (Or.inl rfl)).2
  · exact (listMonitors_filter_validation (NewClient "token") tEmptyLast 1 "bogus" "x"
      (by decide) (by decide)).2 (by decide) (by decide)

/-! ## C5 -/

/-- A response with status 200 and a cleanly decoding (empty) body. -/
def resp200 : HTTPResponse := { StatusCode := 200, Status := "200 OK" }

def tStatus200 : Transport := fun _ => .ok resp200

/-- A response with status 500. -/
def resp500 : HTTPResponse := { StatusCode := 500, Status := "500 Internal Server Error" }

def tStatus500 : Transport := fun _ => .ok resp500

/-- A transport failure whose error renders as `<nil>`. -/
def tFailNil : Transport := fun _ => .error "<nil>"

/-- C5 is partly false on the code: a create call answered with HTTP 200 and a
cleanly decoding body is indeed reported as a failure, but that failure is not
distinct from a request-execution failure — `CreateMonitor` reports it through
the very same branch and message (`failed to execute request: <nil>`, the
formatted nil transport error), producing a result identical to that of an
actual transport failure. -/
theorem createMonitor_status_failure_not_distinct :
    CreateMonitor (NewClient "token") tStatus200 {} =
      (default, some "failed to execute request: <nil>") ∧
    CreateMonitor (NewClient "token") tStatus200 {} =
      CreateMonitor (NewClient "token") tFailNil {} :=
  ⟨rfl, rfl⟩

/-- C5 (amended): a create call whose response status is not 201 fails even if
the body decodes cleanly, and likewise update expects 200 and delete expects
204; however, for create and delete the status mismatch is reported through
the request-execution branch with a formatted nil error
(`failed to execute request: <nil>`), so only update's status failure carries
distinguishing information (the HTTP status text). -/
theorem statusCheck_amended :
    (∀ (c : BetterstackClient) (t : Transport) (m : Monitor) (resp : HTTPResponse),
      t (createRequest c m) = .ok resp → resp.StatusCode ≠ 201 →
      CreateMonitor c t m = (default, some ("failed to execute request: " ++ "<nil>"))) ∧
    (∀ (c : BetterstackClient) (t : Transport) (id : String) (m : Monitor)
        (resp : HTTPResponse),
      t (updateRequest c id m) = .ok resp → resp.StatusCode ≠ 200 →
      UpdateMonitor c t id m = (default, some ("failed to execute request: " ++ resp.Status))) ∧
    (∀ (c : BetterstackClient) (t : Transport) (id : String) (resp : HTTPResponse),
      t (deleteRequest c id) = .ok resp → resp.StatusCode ≠ 204 →
      DeleteMonitor c t id = some ("failed to execute request: " ++ "<nil>")) := by
  refine ⟨?_, ?_, ?_⟩
  · intro c t m resp ht hs
    simp only [CreateMonitor, ht]
    rw [if_pos (show resp.StatusCode ≠ StatusCreated by simpa [StatusCreated] using hs)]
  · intro c t id m resp ht hs
    simp only [UpdateMonitor, ht]
    rw [if_pos (show resp.StatusCode ≠ StatusOK by simpa [StatusOK] using hs)]
  · intro c t id resp ht hs
    simp only [DeleteMonitor, ht]
    rw [if_pos (show resp.StatusCode ≠ StatusNoContent by simpa [StatusNoContent] using hs)]

/-- Witness for C5's amended theorem: status 200 on create, 500 on update and
200 on delete, each through the theorem. -/
theorem statusCheck_amended_witness :
    CreateMonitor (NewClient "token") tStatus200 {} =
      (default, some ("failed to execute request: " ++ "<nil>")) ∧
    UpdateMonitor (NewClient "token") tStatus500 "id1" {} =
      (default, some ("failed to execute request: " ++ resp500.Status)) ∧
    DeleteMonitor (NewClient "token") tStatus200 "id1" =
      some ("failed to execute request: " ++ "<nil>") :=
  ⟨statusCheck_amended.1 (NewClient "token") tStatus200 {} resp200 rfl (by decide),
   statusCheck_amended.2.1 (NewClient "token") tStatus500 "id1" {} resp500 rfl (by decide),
   statusCheck_amended.2.2 (NewClient "token") tStatus200 "id1" resp200 rfl (by decide)⟩

/-! ## C7 -/

/-- C7: a response whose decoded `errors` field is non-empty makes the
operation fail even when the transport, the HTTP status and the body decoding
all succeeded, for the single-page list, get, create and update operations;
with an absent or empty `errors` field the same code path succeeds. -/
theorem errors_field_failure :
    (∀ (c : BetterstackClient) (t : Transport) (page : Int) (resp : HTTPResponse)
        (body : MonitorsResponse),
      t (listRequest c (baseListParams (clampPage page))) = .ok resp →
      resp.BodyList = (body, none) →
      (errorsNotEmpty body.Errors = true →
        (ListMonitors c t page Blanc Blanc).2.1 =
          some ("failed to list monitors: " ++ renderErrors body.Errors)) ∧
      (errorsNotEmpty body.Errors = false →
        (ListMonitors c t page Blanc Blanc).2.1 = none)) ∧
    (∀ (c : BetterstackClient) (t : Transport) (id : String) (resp : HTTPResponse)
        (body : MonitorResponse),
      t (getRequest c id) = .ok resp →
      resp.BodyItem = (body, none) →
      (errorsNotEmpty body.Errors = true →
        (GetMonitor c t id).2 =
          some ("failed to get monitor: " ++ renderErrors body.Errors)) ∧
      (errorsNotEmpty body.Errors = false → (GetMonitor c t id).2 = none)) ∧
    (∀ (c : BetterstackClient) (t : Transport) (m : Monitor) (resp : HTTPResponse)
        (body : MonitorResponse),
      t (createRequest c m) = .ok resp → resp.StatusCode = 201 →
      resp.BodyItem = (body, none) →
      (errorsNotEmpty body.Errors = true →
        (CreateMonitor c t m).2 =
          some ("failed to list monitors: " ++ renderErrors body.Errors)) ∧
      (errorsNotEmpty body.Errors = false → (CreateMonitor c t m).2 = none)) ∧
    (∀ (c : BetterstackClient) (t : Transport) (id : String) (m : Monitor)
        (resp : HTTPResponse) (body : MonitorResponse),
      t (updateRequest c id m) = .ok resp → resp.StatusCode = 200 →
      resp.BodyItem = (body, none) →
      (errorsNotEmpty body.Errors = true →
        (UpdateMonitor c t id m).2 =
          some ("failed to update monitor: " ++ renderErrors body.Errors)) ∧
      (errorsNotEmpty body.Errors = false → (UpdateMonitor c t id m).2 = none)) := by
  refine ⟨?_, ?_, ?_, ?_⟩
  · intro c t page resp body ht hd
    have hfp := @addFilterParams_of_empty
      (baseListParams (clampPage page)) Blanc Blanc (Or.inl rfl)
    constructor
    · intro herr
      simp only [ListMonitors, hfp, ht, hd, herr, if_true]
    · intro herr
      simp only [ListMonitors, hfp, ht, hd, herr, Bool.false_eq_true, if_false]
  · intro c t id resp body ht hd
    constructor
    · intro herr
      simp only [GetMonitor, ht, hd, herr, if_true]
    · intro herr
      simp only [GetMonitor, ht, hd, herr, Bool.false_eq_true, if_false]
  · intro c t m resp body ht hs hd
    have hns : ¬resp.StatusCode ≠ StatusCreated := by simp [hs, StatusCreated]
    constructor
    · intro herr
      simp only [CreateMonitor, ht, if_neg hns, hd, herr, if_true]
    · intro herr
      simp only [CreateMonitor, ht, if_neg hns, hd, herr, Bool.false_eq_true, if_false]
  · intro c t id m resp body ht hs hd
    have hns : ¬resp.StatusCode ≠ StatusOK := by simp [hs, StatusOK]
    constructor
    · intro herr
      simp only [UpdateMonitor, ht, if_neg hns, hd, herr, if_true]
    · intro herr
      simp only [UpdateMonitor, ht, if_neg hns, hd, herr, Bool.false_eq_true, if_false]

/-- A well-statused response whose bodies decode cleanly but report an API
error payload. -/
def respAPIErrors : HTTPResponse :=
  { StatusCode := 201
    Status := "201 Created"
    BodyList := ({ Errors := some ["boom"] }, none)
    BodyItem := ({ Errors := some ["boom"] }, none) }

def tAPIErrors : Transport := fun _ => .ok respAPIErrors

/-- A well-statused response whose bodies decode cleanly with no errors. -/
def respClean : HTTPResponse :=
  { StatusCode := 201
    Status := "201 Created" }

def tClean : Transport := fun _ => .ok respClean

/-- Witness for C7: a non-empty `errors` payload fails the list and create
calls, an absent one lets get succeed, each through the theorem. -/
theorem errors_field_failure_witness :
    (ListMonitors (NewClient "token") tAPIErrors 1 Blanc Blanc).2.1 =
      some ("failed to list monitors: " ++ renderErrors respAPIErrors.BodyList.1.Errors) ∧
    (CreateMonitor (NewClient "token") tAPIErrors {}).2 =
      some ("failed to list monitors: " ++ renderErrors respAPIErrors.BodyItem.1.Errors) ∧
    (GetMonitor (NewClient "token") tClean "id1").2 = none :=
  ⟨(errors_field_failure.1 (NewClient "token") tAPIErrors 1 respAPIErrors
      respAPIErrors.BodyList.1 rfl rfl).1 rfl,
   (errors_field_failure.2.2.1 (NewClient "token") tAPIErrors {} respAPIErrors
      respAPIErrors.BodyItem.1 rfl rfl rfl).1 rfl,
   (errors_field_failure.2.1 (NewClient "token") tClean "id1" respClean
      respClean.BodyItem.1 rfl rfl).2 rfl⟩

/-! ## C1 -/

/-- C1: against any transport serving a collection as 3 pages of 2 items each
(each single-page list call succeeds, page 1's pagination resolves to a last
page of 3, and each page body holds 2 items), `ListAllMonitors` returns all
6 items as one ordered collection in page-then-within-page order and issues
exactly 3 sequential single-page list calls, for pages 1, 2, 3 in that
order. -/
theorem listAllMonitors_three_pages (c : BetterstackClient) (t : Transport)
    (r1 r2 r3 : MonitorsResponse)
    (h1 : (ListMonitors c t 1 Blanc Blanc).1 = r1)
    (h1e : (ListMonitors c t 1 Blanc Blanc).2.1 = none)
    (h2 : (ListMonitors c t 2 Blanc Blanc).1 = r2)
    (h2e : (ListMonitors c t 2 Blanc Blanc).2.1 = none)
    (h3 : (ListMonitors c t 3 Blanc Blanc).1 = r3)
    (h3e : (ListMonitors c t 3 Blanc Blanc).2.1 = none)
    (hlast : Pagination.GetLastPage r1.Pagination = (3, none))
    (hl1 : r1.Data.length = 2) (hl2 : r2.Data.length = 2) (hl3 : r3.Data.length = 2) :
    ListAllMonitors c t = ((r1.Data ++ r2.Data ++ r3.Data).map withID, none, [1, 2, 3]) ∧
    ((r1.Data ++ r2.Data ++ r3.Data).map withID).length = 6 := by
  constructor
  · simp only [ListAllMonitors, h1, h1e, hlast]
    rw [if_neg (by decide : ¬(1 : Int) = 3)]
    rw [listPagesLoop_ok_here c t 3 2 (r1.Data.map withID) [1] (by decide) h2e, h2]
    have e23 : (2 : Int) + 1 = 3 := by decide
    rw [e23]
    rw [listPagesLoop_ok_here c t 3 3
      (r1.Data.map withID ++ r2.Data.map withID) ([1] ++ [2]) (by decide) h3e, h3]
    have e34 : (3 : Int) + 1 = 4 := by decide
    rw [e34]
    rw [listPagesLoop_gt c t 3 4 _ _ (by decide)]
    simp
  · simp [hl1, hl2, hl3]

/-- One wrapped item with the given wrapper identifier and default
attributes. -/
def pageItem (i : String) : EntityWrapper Monitor := { ID := i, Attributes := {} }

/-- A clean one-page response holding the given items, whose `last` link
names page 3. -/
def pageResponse (ids : List String) : HTTPResponse :=
  { StatusCode := 200
    Status := "200 OK"
    BodyList := ({ Data := ids.map pageItem
                   Pagination := { Last := Monitors ++ "?page=3" } }, none) }

/-- A fake transport serving 3 pages of 2 items each, keyed on the `page`
query parameter of the incoming request. -/
def tThreePages : Transport := fun req =>
  if queryGet req.Params "page" == "1" then .ok (pageResponse ["a", "b"])
  else if queryGet req.Params "page" == "2" then .ok (pageResponse ["c", "d"])
  else .ok (pageResponse ["e", "f"])

/-- Witness for C1: the concrete 3-page transport, through the theorem. -/
theorem listAllMonitors_three_pages_witness :
    ListAllMonitors (NewClient "token") tThreePages =
      (((pageResponse ["a", "b"]).BodyList.1.Data ++ (pageResponse ["c", "d"]).BodyList.1.Data
          ++ (pageResponse ["e", "f"]).BodyList.1.Data).map withID, none, [1, 2, 3]) ∧
    (((pageResponse ["a", "b"]).BodyList.1.Data ++ (pageResponse ["c", "d"]).BodyList.1.Data
        ++ (pageResponse ["e", "f"]).BodyList.1.Data).map withID).length = 6 :=
  listAllMonitors_three_pages (NewClient "token") tThreePages
    (pageResponse ["a", "b"]).BodyList.1 (pageResponse ["c", "d"]).BodyList.1
    (pageResponse ["e", "f"]).BodyList.1
    rfl rfl rfl rfl rfl rfl rfl rfl rfl rfl

/-! ## C3 -/

/-- If every page in `[a, k)` succeeds and page `k ≤ b` fails with `e`, the
page loop started at `a ≤ k` returns the items accumulated so far plus the
pages `a..k-1`, the error `e`, and a visit trace ending at `k`. -/
theorem listPagesLoop_fail (c : BetterstackClient) (t : Transport) (b : Int) (e : String) :
    ∀ (n : Nat) (a : Int) (acc : List Monitor) (tr : List Int) (k : Int),
      (k - a).toNat = n → a ≤ k → k ≤ b →
      (∀ i, a ≤ i → i < k → (ListMonitors c t i Blanc Blanc).2.1 = none) →
      (ListMonitors c t k Blanc Blanc).2.1 = some e →
      listPagesLoop c t b a acc tr =
        (acc ++ pagesConcat c t a (k - 1), some e, tr ++ intRange a k) := by
  intro n
  induction n with
  | zero =>
    intro a acc tr k hn ha hk hsucc hfail
    have hka : a = k := by omega
    subst hka
    rw [listPagesLoop_fail_here c t b a acc tr hk hfail]
    rw [pagesConcat_gt c t (by omega)]
    rw [intRange_le (le_refl a), intRange_gt (by omega)]
    simp
  | succ n ih =>
    intro a acc tr k hn ha hk hsucc hfail
    have hak : a < k := by omega
    rw [listPagesLoop_ok_here c t b a acc tr (by omega) (hsucc a (le_refl a) hak)]
    rw [ih (a + 1) (acc ++ (ListMonitors c t a Blanc Blanc).1.Data.map withID) (tr ++ [a]) k
      (by omega) (by omega) hk (fun i hi1 hi2 => hsucc i (by omega) hi2) hfail]
    rw [pagesConcat_le c t (by omega : a ≤ k - 1), intRange_le (le_of_lt hak)]
    simp

/-- C3: the enumerator's failure semantics.  If the page-1 fetch fails, the
failure is propagated immediately with no items.  If page 1 succeeds, the last
page resolves to `n`, pages `2..k-1` succeed and page `k` (with
`2 ≤ k ≤ n`) is the first failure, `ListAllMonitors` stops there and returns
the items accumulated from pages `1..k-1` together with the propagated error,
having visited exactly pages `1..k` in order. -/
theorem listAllMonitors_partial_on_failure (c : BetterstackClient) (t : Transport) :
    (∀ e : String, (ListMonitors c t 1 Blanc Blanc).2.1 = some e →
      ListAllMonitors c t = ([], some e, [1])) ∧
    (∀ (r1 : MonitorsResponse) (n k : Int) (e : String),
      (ListMonitors c t 1 Blanc Blanc).1 = r1 →
      (ListMonitors c t 1 Blanc Blanc).2.1 = none →
      Pagination.GetLastPage r1.Pagination = (n, none) →
      2 ≤ k → k ≤ n →
      (∀ i, 2 ≤ i → i < k → (ListMonitors c t i Blanc Blanc).2.1 = none) →
      (ListMonitors c t k Blanc Blanc).2.1 = some e →
      ListAllMonitors c t =
        (r1.Data.map withID ++ pagesConcat c t 2 (k - 1), some e, 1 :: intRange 2 k)) := by
  constructor
  · intro e he
    simp only [ListAllMonitors, he]
  · intro r1 n k e h1 h1e hlast hk2 hkn hsucc hfail
    simp only [ListAllMonitors, h1, h1e, hlast]
    rw [if_neg (by omega : ¬(1 : Int) = n)]
    rw [listPagesLoop_fail c t n e (k - 2).toNat 2 (r1.Data.map withID) [1] k
      (by omega) (by omega) hkn hsucc hfail]
    simp

/-- A fake transport serving page 1 of 3 cleanly and failing on every other
page. -/
def tFailPage2 : Transport := fun req =>
  if queryGet req.Params "page" == "1" then .ok (pageResponse ["a", "b"])
  else .error "boom"

/-- Witness for C3: page-1 failure propagates with no items, and a failure on
page 2 of 3 yields the page-1 items plus the propagated error, both through
the theorem. -/
theorem listAllMonitors_partial_on_failure_witness :
    ListAllMonitors (NewClient "token") tFailNil =
      ([], some "failed to execute request: <nil>", [1]) ∧
    ListAllMonitors (NewClient "token") tFailPage2 =
      ((pageResponse ["a", "b"]).BodyList.1.Data.map withID ++
          pagesConcat (NewClient "token") tFailPage2 2 1,
        some "failed to execute request: boom", 1 :: intRange 2 2) :=
  ⟨(listAllMonitors_partial_on_failure (NewClient "token") tFailNil).1
      "failed to execute request: <nil>" rfl,
   (listAllMonitors_partial_on_failure (NewClient "token") tFailPage2).2
      (pageResponse ["a", "b"]).BodyList.1 3 2 "failed to execute request: boom"
      rfl rfl rfl (by decide) (by decide) (by intro i hi1 hi2; omega) rfl⟩

/-! ## C8 -/

/-- Every item the page loop emits beyond its accumulator is the
identifier-copied attributes of a wrapper from some single-page list call. -/
theorem listPagesLoop_mem (c : BetterstackClient) (t : Transport) (b : Int) :
    ∀ (n : Nat) (a : Int) (acc : List Monitor) (tr : List Int) (m : Monitor),
      (b + 1 - a).toNat = n →
      m ∈ (listPagesLoop c t b a acc tr).1 →
      m ∈ acc ∨ ∃ i, ∃ w ∈ (ListMonitors c t i Blanc Blanc).1.Data, m = withID w := by
  intro n
  induction n with
  | zero =>
    intro a acc tr m hn hm
    rw [listPagesLoop_gt c t b a acc tr (by omega)] at hm
    exact Or.inl hm
  | succ n ih =>
    intro a acc tr m hn hm
    by_cases hab : a > b
    · rw [listPagesLoop_gt c t b a acc tr hab] at hm
      exact Or.inl hm
    · cases hcall : (ListMonitors c t a Blanc Blanc).2.1 with
      | some e =>
        rw [listPagesLoop_fail_here c t b a acc tr (by omega) hcall] at hm
        exact Or.inl hm
      | none =>
        rw [listPagesLoop_ok_here c t b a acc tr (by omega) hcall] at hm
        rcases ih (a + 1) (acc ++ (ListMonitors c t a Blanc Blanc).1.Data.map withID)
          (tr ++ [a]) m (by omega) hm with hacc | hex
        · rcases List.mem_append.mp hacc with h | h
          · exact Or.inl h
          · rcases List.mem_map.mp h with ⟨w, hw, hwm⟩
            exact Or.inr ⟨a, w, hw, hwm.symm⟩
        · exact Or.inr hex

/-- C8: after every successful read or write, the returned resource carries
the enclosing wrapper's identifier in its attributes: get, create and update
copy the wrapper identifier into the attributes of their single result, and
every item returned by the find and list-all aggregations is the
identifier-copied attributes of a wrapper from one of the underlying
single-page list calls (so its `ID` equals the wrapper's). -/
theorem id_copied_into_attributes :
    (∀ (c : BetterstackClient) (t : Transport) (id : String) (res : MonitorResponse),
      GetMonitor c t id = (res, none) → res.Data.Attributes.ID = res.Data.ID) ∧
    (∀ (c : BetterstackClient) (t : Transport) (m : Monitor) (res : MonitorResponse),
      CreateMonitor c t m = (res, none) → res.Data.Attributes.ID = res.Data.ID) ∧
    (∀ (c : BetterstackClient) (t : Transport) (id : String) (m : Monitor)
        (res : MonitorResponse),
      UpdateMonitor c t id m = (res, none) → res.Data.Attributes.ID = res.Data.ID) ∧
    (∀ (c : BetterstackClient) (t : Transport) (kind val : String),
      ∀ m ∈ (FindMonitor c t kind val).1,
        ∃ w ∈ (ListMonitors c t 1 kind val).1.Data, m = withID w ∧ m.ID = w.ID) ∧
    (∀ (c : BetterstackClient) (t : Transport),
      ∀ m ∈ (ListAllMonitors c t).1,
        ∃ i, ∃ w ∈ (ListMonitors c t i Blanc Blanc).1.Data, m = withID w ∧ m.ID = w.ID) := by
  refine ⟨?_, ?_, ?_, ?_, ?_⟩
  · intro c t id res h
    cases ht : t (getRequest c id) with
    | error e => simp only [GetMonitor, ht] at h; simp at h
    | ok resp =>
      cases hd : resp.BodyItem.2 with
      | some e => simp only [GetMonitor, ht, hd] at h; simp at h
      | none =>
        by_cases herr : errorsNotEmpty resp.BodyItem.1.Errors
        · simp only [GetMonitor, ht, hd, if_pos herr] at h
          simp at h
        · simp only [GetMonitor, ht, hd, if_neg herr] at h
          rw [Prod.mk.injEq] at h
          rw [← h.1]
  · intro c t m res h
    cases ht : t (createRequest c m) with
    | error e => simp only [CreateMonitor, ht] at h; simp at h
    | ok resp =>
      by_cases hs : resp.StatusCode ≠ StatusCreated
      · simp only [CreateMonitor, ht, if_pos hs] at h
        simp at h
      · cases hd : resp.BodyItem.2 with
        | some e => simp only [CreateMonitor, ht, if_neg hs, hd] at h; simp at h
        | none =>
          by_cases herr : errorsNotEmpty resp.BodyItem.1.Errors
          · simp only [CreateMonitor, ht, if_neg hs, hd, if_pos herr] at h
            simp at h
          · simp only [CreateMonitor, ht, if_neg hs, hd, if_neg herr] at h
            rw [Prod.mk.injEq] at h
            rw [← h.1]
  · intro c t id m res h
    cases ht : t (updateRequest c id m) with
    | error e => simp only [UpdateMonitor, ht] at h; simp at h
    | ok resp =>
      by_cases hs : resp.StatusCode ≠ StatusOK
      · simp only [UpdateMonitor, ht, if_pos hs] at h
        simp at h
      · cases hd : resp.BodyItem.2 with
        | some e => simp only [UpdateMonitor, ht, if_neg hs, hd] at h; simp at h
        | none =>
          by_cases herr : errorsNotEmpty resp.BodyItem.1.Errors
          · simp only [UpdateMonitor, ht, if_neg hs, hd, if_pos herr] at h
            simp at h
          · simp only [UpdateMonitor, ht, if_neg hs, hd, if_neg herr] at h
            rw [Prod.mk.injEq] at h
            rw [← h.1]
  · intro c t kind val m hm
    cases he : (ListMonitors c t 1 kind val).2.1 with
    | some e => simp only [FindMonitor, he] at hm; simp at hm
    | none =>
      simp only [FindMonitor, he] at hm
      rcases List.mem_map.mp hm with ⟨w, hw, hwm⟩
      exact ⟨w, hw, hwm.symm, by rw [← hwm]; simp [withID]⟩
  · intro c t m hm
    cases h1e : (ListMonitors c t 1 Blanc Blanc).2.1 with
    | some e => simp only [ListAllMonitors, h1e] at hm; simp at hm
    | none =>
      cases hlp : (Pagination.GetLastPage (ListMonitors c t 1 Blanc Blanc).1.Pagination).2 with
      | some e => simp only [ListAllMonitors, h1e, hlp] at hm; simp at hm
      | none =>
        simp only [ListAllMonitors, h1e, hlp] at hm
        by_cases hone :
            (1 : Int) = (Pagination.GetLastPage (ListMonitors c t 1 Blanc Blanc).1.Pagination).1
        · rw [if_pos hone] at hm
          rcases List.mem_map.mp hm with ⟨w, hw, hwm⟩
          exact ⟨1, w, hw, hwm.symm, by rw [← hwm]; simp [withID]⟩
        · rw [if_neg hone] at hm
          rcases listPagesLoop_mem c t
              (Pagination.GetLastPage (ListMonitors c t 1 Blanc Blanc).1.Pagination).1
              ((Pagination.GetLastPage (ListMonitors c t 1 Blanc Blanc).1.Pagination).1 + 1
                - 2).toNat
              2 ((ListMonitors c t 1 Blanc Blanc).1.Data.map withID) [1] m rfl hm
            with hacc | hex
          · rcases List.mem_map.mp hacc with ⟨w, hw, hwm⟩
            exact ⟨1, w, hw, hwm.symm, by rw [← hwm]; simp [withID]⟩
          · rcases hex with ⟨i, w, hw, hwm⟩
            exact ⟨i, w, hw, hwm, by rw [hwm]; simp [withID]⟩

/-- Witness for C8: a successful get against a clean transport has the
wrapper identifier copied into the attributes, through the theorem. -/
theorem id_copied_into_attributes_witness :
    (GetMonitor (NewClient "token") tClean "id1").1.Data.Attributes.ID =
      (GetMonitor (NewClient "token") tClean "id1").1.Data.ID :=
  id_copied_into_attributes.1 (NewClient "token") tClean "id1"
    (GetMonitor (NewClient "token") tClean "id1").1 rfl

end Betterstack
